import Mathlib

/-!
Shallow embedding of the Raft node handlers from `src/node.rs`
(`123vivekr/raft`).  The gRPC handlers `request_vote`, `append_entries`
and `join` are modelled as pure functions from the shared node state
(`RaftDetails`) and the request to the updated state paired with the
reply.  Every Rust `return Ok(Response::new(..))` site becomes a pair
whose first component is the node state at that point.

Machine integers (protobuf `uint64`, the `u8` node id) are modelled as
`Nat`: the handlers only compare them and take `min`, so no overflow is
observable.  The byte payload of `join` is a `List Nat`; the standard
library functions `String::from_utf8`, `str::parse::<SocketAddr>` and
the `Display` formatting of a socket address are external to the
repository and are taken as parameters of the embedded `join`.
-/

/-- Protobuf `VoteRequest { term, candidate_id }`. -/
structure VoteRequest where
  term : Nat
  candidate_id : Nat
deriving Repr, DecidableEq

/-- Protobuf `VoteReply { term, grant }`. -/
structure VoteReply where
  term : Nat
  grant : Bool
deriving Repr, DecidableEq

/-- Protobuf `EntryRequest { term, prev_index, commit_index }`. -/
structure EntryRequest where
  term : Nat
  prev_index : Nat
  commit_index : Nat
deriving Repr, DecidableEq

/-- Protobuf `EntryReply { term, success }`. -/
structure EntryReply where
  term : Nat
  success : Bool
deriving Repr, DecidableEq

/-- The shared node state behind the mutex in `RaftNode`.  The struct
`RaftDetails` itself lives outside `src/node.rs`; its fields are exactly
the ones the handlers read and write: `id`, `current_term`, `voted_for`,
`commit_index`, the replicated `log` (a vector of indexed entries whose
`.0` component is the entry index) and the `cluster` address list.  The
entry payload type is opaque to the handlers and fixed to `String`. -/
structure RaftDetails where
  id : Nat
  current_term : Nat
  voted_for : Nat
  commit_index : Nat
  log : List (Nat × String)
  cluster : List String
deriving Repr, DecidableEq

/-- `match details.log.last() { Some(entry) => entry.0, None => 0 }`. -/
def lastEntryIndex (log : List (Nat × String)) : Nat :=
  match log.getLast? with
  | some entry => entry.fst
  | none => 0

/-- Handler `request_vote` of `impl Raft for RaftNode`.  The Rust code
takes the lock immutably and returns a reply at one of three sites; the
state component of each site is the untouched `details`. -/
def request_vote (details : RaftDetails) (request : VoteRequest) :
    RaftDetails × VoteReply :=
  if request.term < details.current_term then
    (details, { term := details.current_term, grant := false })
  else if details.voted_for = details.id then
    (details, { term := details.current_term, grant := true })
  else
    (details, { term := details.current_term, grant := false })

/-- Handler `append_entries` of `impl Raft for RaftNode`.  Mirrors the
Rust branch structure: stale term and `prev_index > commit_index` return
early with `success = false`; otherwise, when the request's
`commit_index` exceeds the local one, `commit_index` is set to
`min(request.commit_index, last_entry_index)` before the final
`success = true` reply. -/
def append_entries (details : RaftDetails) (request : EntryRequest) :
    RaftDetails × EntryReply :=
  if request.term < details.current_term then
    (details, { term := details.current_term, success := false })
  else if request.prev_index > details.commit_index then
    (details, { term := details.current_term, success := false })
  else if request.commit_index > details.commit_index then
    let last_entry_index := lastEntryIndex details.log
    let details' :=
      { details with
        commit_index := min request.commit_index last_entry_index }
    (details', { term := details'.current_term, success := true })
  else
    (details, { term := details.current_term, success := true })

/-- Handler `join` of `impl Raft for RaftNode`.  `Addr` stands for
`std::net::SocketAddr`; `from_utf8`, `parseAddr` and `formatAddr` stand
for `String::from_utf8`, `str::parse::<SocketAddr>` and
`format!("{}", addr)`, all Rust standard-library functions external to
the repository.  On success the formatted address is pushed onto
`cluster`; on either failure the error status is returned with the
state untouched. -/
def join (Addr : Type) (from_utf8 : List Nat → Option String)
    (parseAddr : String → Option Addr) (formatAddr : Addr → String)
    (details : RaftDetails) (body : List Nat) :
    RaftDetails × Except String Unit :=
  match from_utf8 body with
  | some str_addr =>
    match parseAddr str_addr with
    | some addr =>
      ({ details with cluster := details.cluster ++ [formatAddr addr] },
       Except.ok ())
    | none => (details, Except.error "Unable to join")
  | none => (details, Except.error "Unable to join")

/-- A concrete fresh node state (term 0, empty log, commit index 0),
matching the startup state described for `ConsensusState`. -/
def freshDetails : RaftDetails :=
  { id := 1, current_term := 0, voted_for := 0, commit_index := 0,
    log := [], cluster := [] }

/-- C1 counterexample: a node at term 0 receives `RequestVote` with
term 5 (strictly greater), yet after the handler the current term is
still 0, not 5 — and the same for `AppendEntries`.  The handlers never
adopt a higher term. -/
theorem C1_counterexample :
    (0 : Nat) < (5 : Nat) ∧
    freshDetails.current_term = 0 ∧
    ((request_vote freshDetails
        { term := 5, candidate_id := 2 }).fst).current_term ≠ 5 ∧
    ((append_entries freshDetails
        { term := 5, prev_index := 0, commit_index := 0 }).fst).current_term
      ≠ 5 := by decide

/-- C1 (amended): for every incoming `RequestVote` or `AppendEntries`
request — in particular one whose term strictly exceeds the node's
current term — the handler leaves `current_term` unchanged, and the
reply carries that unchanged current term. -/
theorem handlers_do_not_adopt_term (d : RaftDetails)
    (vr : VoteRequest) (er : EntryRequest) :
    ((request_vote d vr).fst).current_term = d.current_term ∧
    ((request_vote d vr).snd).term = d.current_term ∧
    ((append_entries d er).fst).current_term = d.current_term ∧
    ((append_entries d er).snd).term = d.current_term := by
  unfold request_vote append_entries
  refine ⟨?_, ?_, ?_, ?_⟩
  all_goals repeat' split
  all_goals rfl

/-- C2: when the request's term is at least the node's current term,
the reply grants exactly when `voted_for = id`, the reply term is the
node's current term, and the incoming `candidate_id` has no influence
on the handler's result. -/
theorem request_vote_grant_iff_self_vote (d : RaftDetails)
    (r : VoteRequest) (h : d.current_term ≤ r.term) :
    (((request_vote d r).snd).grant = true ↔ d.voted_for = d.id) ∧
    ((request_vote d r).snd).term = d.current_term ∧
    ∀ c : Nat,
      request_vote d { term := r.term, candidate_id := c }
        = request_vote d r := by
  refine ⟨?_, ?_, fun c => rfl⟩
  · unfold request_vote
    rw [if_neg (Nat.not_lt.mpr h)]
    split <;> simp_all
  · unfold request_vote
    repeat' split
    all_goals rfl

/-- C2 witness: a node at term 3 that voted for itself grants the vote
to a request at term 3, replying with term 3; the result is independent
of the candidate id. -/
theorem request_vote_grant_iff_self_vote_witness :
    (3 : Nat) ≤ 3 ∧
    ((request_vote
        { id := 1, current_term := 3, voted_for := 1, commit_index := 0,
          log := [], cluster := [] }
        { term := 3, candidate_id := 9 }).snd).grant = true ∧
    ((request_vote
        { id := 1, current_term := 3, voted_for := 1, commit_index := 0,
          log := [], cluster := [] }
        { term := 3, candidate_id := 9 }).snd).term = 3 ∧
    request_vote
        { id := 1, current_term := 3, voted_for := 1, commit_index := 0,
          log := [], cluster := [] }
        { term := 3, candidate_id := 5 }
      = request_vote
          { id := 1, current_term := 3, voted_for := 1, commit_index := 0,
            log := [], cluster := [] }
          { term := 3, candidate_id := 9 } :=
  ⟨by decide,
   (request_vote_grant_iff_self_vote
     { id := 1, current_term := 3, voted_for := 1, commit_index := 0,
       log := [], cluster := [] }
     { term := 3, candidate_id := 9 } (by decide)).1.mpr (by decide),
   (request_vote_grant_iff_self_vote
     { id := 1, current_term := 3, voted_for := 1, commit_index := 0,
       log := [], cluster := [] }
     { term := 3, candidate_id := 9 } (by decide)).2.1,
   (request_vote_grant_iff_self_vote
     { id := 1, current_term := 3, voted_for := 1, commit_index := 0,
       log := [], cluster := [] }
     { term := 3, candidate_id := 9 } (by decide)).2.2 5⟩

/-- C10: `request_vote` performs no mutation at all: the returned node
state (term, vote record, log, commit index, membership) is the input
state, whatever the request. -/
theorem request_vote_no_mutation (d : RaftDetails) (r : VoteRequest) :
    (request_vote d r).fst = d := by
  unfold request_vote
  repeat' split
  all_goals rfl

/-- C3: if the commit index does not exceed the index of the last held
log entry (0 for an empty log) before an `append_entries` call, then
afterwards the commit index has not decreased and still does not exceed
the index of the last held log entry. -/
theorem append_entries_commit_invariant (d : RaftDetails)
    (r : EntryRequest) (h : d.commit_index ≤ lastEntryIndex d.log) :
    d.commit_index ≤ ((append_entries d r).fst).commit_index ∧
    ((append_entries d r).fst).commit_index
      ≤ lastEntryIndex ((append_entries d r).fst).log := by
  unfold append_entries
  repeat' split
  all_goals simp_all
  all_goals omega

/-- C3 witness: on a node with commit index 10 and last log entry index
12, an `append_entries` with request commit index 15 keeps the commit
index between 10 and the last held index. -/
theorem append_entries_commit_invariant_witness :
    (10 : Nat) ≤ lastEntryIndex [(12, "x")] ∧
    (10 ≤ ((append_entries
        { id := 1, current_term := 5, voted_for := 0, commit_index := 10,
          log := [(12, "x")], cluster := [] }
        { term := 5, prev_index := 8, commit_index := 15 }).fst).commit_index ∧
     ((append_entries
        { id := 1, current_term := 5, voted_for := 0, commit_index := 10,
          log := [(12, "x")], cluster := [] }
        { term := 5, prev_index := 8, commit_index := 15 }).fst).commit_index
      ≤ lastEntryIndex ((append_entries
          { id := 1, current_term := 5, voted_for := 0, commit_index := 10,
            log := [(12, "x")], cluster := [] }
          { term := 5, prev_index := 8, commit_index := 15 }).fst).log) :=
  ⟨by decide,
   append_entries_commit_invariant
     { id := 1, current_term := 5, voted_for := 0, commit_index := 10,
       log := [(12, "x")], cluster := [] }
     { term := 5, prev_index := 8, commit_index := 15 } (by decide)⟩

/-- C4: when the request's term is at least the current term, its
`prev_index` is at most the local commit index and its `commit_index`
strictly exceeds the local commit index, `append_entries` sets the
commit index to `min(request.commit_index, lastEntryIndex)` and replies
`success = true` with the current term, touching nothing else. -/
theorem append_entries_advances_commit (d : RaftDetails)
    (r : EntryRequest) (h1 : d.current_term ≤ r.term)
    (h2 : r.prev_index ≤ d.commit_index)
    (h3 : d.commit_index < r.commit_index) :
    append_entries d r
      = ({ d with
            commit_index := min r.commit_index (lastEntryIndex d.log) },
         { term := d.current_term, success := true }) := by
  unfold append_entries
  rw [if_neg (Nat.not_lt.mpr h1), if_neg (Nat.not_lt.mpr h2),
    if_pos h3]

/-- C4 witness (Scenario B): commit index 10, last log index 12,
request `{term 5, prevIndex 8, commitIndex 15}` at current term 5 gives
`success = true` and commit index `min 15 12 = 12`. -/
theorem append_entries_advances_commit_witness :
    ((5 : Nat) ≤ 5 ∧ (8 : Nat) ≤ 10 ∧ (10 : Nat) < 15) ∧
    append_entries
        { id := 1, current_term := 5, voted_for := 0, commit_index := 10,
          log := [(11, "a"), (12, "b")], cluster := [] }
        { term := 5, prev_index := 8, commit_index := 15 }
      = ({ id := 1, current_term := 5, voted_for := 0, commit_index := 12,
           log := [(11, "a"), (12, "b")], cluster := [] },
         { term := 5, success := true }) :=
  ⟨by decide,
   by
    rw [append_entries_advances_commit
      { id := 1, current_term := 5, voted_for := 0, commit_index := 10,
        log := [(11, "a"), (12, "b")], cluster := [] }
      { term := 5, prev_index := 8, commit_index := 15 }
      (by decide) (by decide) (by decide)]
    decide⟩

/-- C5: when the request's term is at least the current term but its
`prev_index` strictly exceeds the local commit index, `append_entries`
replies `success = false` with the current term and leaves the whole
node state unchanged. -/
theorem append_entries_gap_rejected (d : RaftDetails)
    (r : EntryRequest) (h1 : d.current_term ≤ r.term)
    (h2 : d.commit_index < r.prev_index) :
    append_entries d r
      = (d, { term := d.current_term, success := false }) := by
  unfold append_entries
  rw [if_neg (Nat.not_lt.mpr h1), if_pos h2]

/-- C5 witness (Scenario C): commit index 10, request
`{term 5, prevIndex 11, commitIndex 15}` at current term 5 gives
`success = false` and an unchanged state. -/
theorem append_entries_gap_rejected_witness :
    ((5 : Nat) ≤ 5 ∧ (10 : Nat) < 11) ∧
    append_entries
        { id := 1, current_term := 5, voted_for := 0, commit_index := 10,
          log := [(11, "a"), (12, "b")], cluster := [] }
        { term := 5, prev_index := 11, commit_index := 15 }
      = ({ id := 1, current_term := 5, voted_for := 0, commit_index := 10,
           log := [(11, "a"), (12, "b")], cluster := [] },
         { term := 5, success := false }) :=
  ⟨by decide,
   append_entries_gap_rejected
     { id := 1, current_term := 5, voted_for := 0, commit_index := 10,
       log := [(11, "a"), (12, "b")], cluster := [] }
     { term := 5, prev_index := 11, commit_index := 15 }
     (by decide) (by decide)⟩

/-- C6: a `RequestVote` whose term is strictly below the current term
is rejected: the reply is `{term: current_term, grant: false}` and the
node state is unchanged. -/
theorem request_vote_stale_rejected (d : RaftDetails)
    (r : VoteRequest) (h : r.term < d.current_term) :
    request_vote d r
      = (d, { term := d.current_term, grant := false }) := by
  unfold request_vote
  rw [if_pos h]

/-- C6 witness (Scenario A): a node at term 5 receiving
`RequestVote{term 3, candidateId 7}` replies `{term 5, grant false}`
and is unchanged. -/
theorem request_vote_stale_rejected_witness :
    (3 : Nat) < 5 ∧
    request_vote
        { id := 1, current_term := 5, voted_for := 0, commit_index := 0,
          log := [], cluster := [] }
        { term := 3, candidate_id := 7 }
      = ({ id := 1, current_term := 5, voted_for := 0, commit_index := 0,
           log := [], cluster := [] },
         { term := 5, grant := false }) :=
  ⟨by decide,
   request_vote_stale_rejected
     { id := 1, current_term := 5, voted_for := 0, commit_index := 0,
       log := [], cluster := [] }
     { term := 3, candidate_id := 7 } (by decide)⟩

/-- C7: an `AppendEntries` whose term is strictly below the current
term is rejected: the reply is `{term: current_term, success: false}`
and the node state, commit index included, is unchanged. -/
theorem append_entries_stale_rejected (d : RaftDetails)
    (r : EntryRequest) (h : r.term < d.current_term) :
    append_entries d r
      = (d, { term := d.current_term, success := false }) := by
  unfold append_entries
  rw [if_pos h]

/-- C7 witness: a node at term 5 with commit index 10 receiving
`AppendEntries{term 3, prevIndex 0, commitIndex 15}` replies
`{term 5, success false}` and is unchanged. -/
theorem append_entries_stale_rejected_witness :
    (3 : Nat) < 5 ∧
    append_entries
        { id := 1, current_term := 5, voted_for := 0, commit_index := 10,
          log := [(11, "a"), (12, "b")], cluster := [] }
        { term := 3, prev_index := 0, commit_index := 15 }
      = ({ id := 1, current_term := 5, voted_for := 0, commit_index := 10,
           log := [(11, "a"), (12, "b")], cluster := [] },
         { term := 5, success := false }) :=
  ⟨by decide,
   append_entries_stale_rejected
     { id := 1, current_term := 5, voted_for := 0, commit_index := 10,
       log := [(11, "a"), (12, "b")], cluster := [] }
     { term := 3, prev_index := 0, commit_index := 15 } (by decide)⟩

/-- C8: a `join` whose payload fails UTF-8 decoding, or decodes to text
that does not parse as a socket address, returns the error status and
leaves the node state — the cluster membership in particular —
completely unchanged. -/
theorem join_failure_no_mutation (Addr : Type)
    (from_utf8 : List Nat → Option String)
    (parseAddr : String → Option Addr) (formatAddr : Addr → String)
    (d : RaftDetails) (body : List Nat)
    (h : from_utf8 body = none ∨
      ∃ s, from_utf8 body = some s ∧ parseAddr s = none) :
    join Addr from_utf8 parseAddr formatAddr d body
      = (d, Except.error "Unable to join") := by
  rcases h with h | ⟨s, hs, hp⟩
  · simp only [join, h]
  · simp only [join, hs, hp]

/-- C8 witness: with a decoder that rejects the payload, `join` on the
fresh node state returns the error and the unchanged state. -/
theorem join_failure_no_mutation_witness :
    ((fun _ : List Nat => (none : Option String)) [255] = none ∨
      ∃ s, (fun _ : List Nat => (none : Option String)) [255] = some s ∧
        (fun _ : String => (none : Option Unit)) s = none) ∧
    join Unit (fun _ => none) (fun _ => none) (fun _ => "")
        freshDetails [255]
      = (freshDetails, Except.error "Unable to join") :=
  ⟨Or.inl rfl,
   join_failure_no_mutation Unit (fun _ => none) (fun _ => none)
     (fun _ => "") freshDetails [255] (Or.inl rfl)⟩

/-- C9: a `join` whose payload decodes to text parsing as a socket
address acknowledges success and appends the formatted (normalized)
address at the end of the cluster list: all previous addresses are
preserved and the length grows by exactly one.  There is no duplicate
check: running the same `join` again appends the same address a second
time. -/
theorem join_success_appends (Addr : Type)
    (from_utf8 : List Nat → Option String)
    (parseAddr : String → Option Addr) (formatAddr : Addr → String)
    (d : RaftDetails) (body : List Nat) (s : String) (addr : Addr)
    (h1 : from_utf8 body = some s) (h2 : parseAddr s = some addr) :
    join Addr from_utf8 parseAddr formatAddr d body
      = ({ d with cluster := d.cluster ++ [formatAddr addr] },
         Except.ok ()) ∧
    ((join Addr from_utf8 parseAddr formatAddr d body).fst).cluster.length
      = d.cluster.length + 1 ∧
    ((join Addr from_utf8 parseAddr formatAddr
        (join Addr from_utf8 parseAddr formatAddr d body).fst body).fst).cluster
      = d.cluster ++ [formatAddr addr, formatAddr addr] := by
  have hj : ∀ e : RaftDetails,
      join Addr from_utf8 parseAddr formatAddr e body
        = ({ e with cluster := e.cluster ++ [formatAddr addr] },
           Except.ok ()) := by
    intro e
    simp only [join, h1, h2]
  refine ⟨hj d, ?_, ?_⟩
  · rw [hj d]
    simp
  · rw [hj d, hj _]
    simp

/-- C9 witness: with a decoder yielding `"127.0.0.1:9001"` and a parser
accepting it, `join` acknowledges and appends the formatted address;
the length grows from 1 to 2, and a repeated `join` appends it again. -/
theorem join_success_appends_witness :
    ((fun _ : List Nat => some "127.0.0.1:9001") [49] = some "127.0.0.1:9001" ∧
      (fun _ : String => some ()) "127.0.0.1:9001" = some ()) ∧
    (join Unit (fun _ => some "127.0.0.1:9001") (fun _ => some ())
        (fun _ => "127.0.0.1:9001")
        { id := 1, current_term := 0, voted_for := 0, commit_index := 0,
          log := [], cluster := ["10.0.0.2:4000"] } [49]
      = ({ id := 1, current_term := 0, voted_for := 0, commit_index := 0,
           log := [],
           cluster := ["10.0.0.2:4000", "127.0.0.1:9001"] },
         Except.ok ()) ∧
     ((join Unit (fun _ => some "127.0.0.1:9001") (fun _ => some ())
        (fun _ => "127.0.0.1:9001")
        { id := 1, current_term := 0, voted_for := 0, commit_index := 0,
          log := [], cluster := ["10.0.0.2:4000"] } [49]).fst).cluster.length
      = 2 ∧
     ((join Unit (fun _ => some "127.0.0.1:9001") (fun _ => some ())
        (fun _ => "127.0.0.1:9001")
        (join Unit (fun _ => some "127.0.0.1:9001") (fun _ => some ())
          (fun _ => "127.0.0.1:9001")
          { id := 1, current_term := 0, voted_for := 0, commit_index := 0,
            log := [], cluster := ["10.0.0.2:4000"] } [49]).fst
        [49]).fst).cluster
      = ["10.0.0.2:4000", "127.0.0.1:9001", "127.0.0.1:9001"]) :=
  ⟨⟨rfl, rfl⟩,
   join_success_appends Unit (fun _ => some "127.0.0.1:9001")
     (fun _ => some ()) (fun _ => "127.0.0.1:9001")
     { id := 1, current_term := 0, voted_for := 0, commit_index := 0,
       log := [], cluster := ["10.0.0.2:4000"] }
     [49] "127.0.0.1:9001" () rfl rfl⟩
